import Mathlib

/-!
Verification of the Spotify track-recommender script (`main.py`).

The script wraps two external catalog calls — an artist search and a
top-tracks fetch — and a `random.sample` step behind a single tool entry
point `SpotifyTool._run`.  We embed the four functions of the class
shallowly:

* the external service is a `Catalog`: a pair of pure response functions,
  quantified over in every theorem (the spec treats the service as a
  black box);
* the search response is modelled as a Python dict: an association list
  of keys, because `retrieve_id` inspects `len(results)`, the number of
  keys of the whole response object;
* Python exceptions become an explicit `PyError` sum
  (`ValueError` with its message text, `KeyError`, `IndexError`),
  and every fallible function returns `Except PyError _`;
* `random.sample(pool, k)` draws `k` elements at pairwise-distinct
  indices of `pool`; the random choice of indices is passed in as an
  explicit `idxs : List Nat` argument, constrained by `IsSample` in the
  theorems, while the sampler's own argument check (raising
  `ValueError "Sample larger than population or is negative"` unless
  `0 ≤ k ≤ len(pool)`) is part of the embedded code of `_run`.
-/

namespace SpotifyAI

/-- One entry of `results['artists']['items']`: an artist record, of which
the code reads only the `id` field. -/
structure ArtistItem where
  id : String
deriving DecidableEq, Repr

/-- The object stored under the `artists` key of a search response, of which
the code reads the `items` list. -/
structure ArtistsObj where
  items : List ArtistItem
deriving DecidableEq, Repr

/-- The response of `sp.search(q='artist:...', type='artist')`: a Python
dict, modelled as its key/value pairs so that `len(results)` (the number
of keys) is expressible. -/
structure SearchResponse where
  entries : List (String × ArtistsObj)
deriving DecidableEq, Repr

/-- One entry of `top_tracks['tracks']`: a track record, of which the code
reads only the `name` field. -/
structure TrackObj where
  name : String
deriving DecidableEq, Repr

/-- The response of `sp.artist_top_tracks(artist_id)`, of which the code
reads the `tracks` list. -/
structure TopTracksResponse where
  tracks : List TrackObj
deriving DecidableEq, Repr

/-- The external catalog service (`sp`): search by artist query, and
top tracks by artist id.  Both are black boxes; theorems quantify over
them. -/
structure Catalog where
  search : String → SearchResponse
  artist_top_tracks : String → TopTracksResponse

/-- Python exceptions raised by the script or the primitives it calls. -/
inductive PyError where
  | valueError (msg : String)
  | keyError (key : String)
  | indexError
deriving DecidableEq, Repr

instance {ε α : Type} [DecidableEq ε] [DecidableEq α] : DecidableEq (Except ε α)
  | .error e, .error f => if h : e = f then .isTrue (by rw [h]) else .isFalse (by simp [h])
  | .error _, .ok _ => .isFalse (by simp)
  | .ok _, .error _ => .isFalse (by simp)
  | .ok a, .ok b => if h : a = b then .isTrue (by rw [h]) else .isFalse (by simp [h])

/-- Python dict lookup `d[k]` on the association-list model: `some` the
stored value, `none` when the key is absent (a `KeyError`). -/
def dictLookup (l : List (String × ArtistsObj)) (k : String) : Option ArtistsObj :=
  (l.find? (fun p => p.1 == k)).map (fun p => p.2)

/-- `SpotifyTool.retrieve_id`:

    results = sp.search(q='artist:' + artist_name, type='artist')
    if len(results) > 0:
        artist_id = results['artists']['items'][0]['id']
    else:
        raise ValueError(f"No artists found with this name: {artist_name}")
    return artist_id

`len(results)` is the number of keys of the response dict.  The branch
accesses `results['artists']` (`KeyError` if absent) and then the first
item (`IndexError` if `items` is empty). -/
def retrieve_id (cat : Catalog) (artist_name : String) : Except PyError String :=
  let results := cat.search artist_name
  if results.entries.length > 0 then
    match dictLookup results.entries "artists" with
    | none => .error (.keyError "artists")
    | some obj =>
      match obj.items with
      | [] => .error .indexError
      | item :: _ => .ok item.id
  else
    .error (.valueError ("No artists found with this name: " ++ artist_name))

/-- Python slice `l[:k]` for an arbitrary integer bound `k`: the first
`k` elements when `0 ≤ k`, and all but the last `|k|` elements (clamped
at the empty list) when `k < 0`. -/
def pySliceTo {α : Type} (l : List α) (k : Int) : List α :=
  l.take (if 0 ≤ k then k.toNat else l.length - (-k).toNat)

/-- `SpotifyTool.retrieve_tracks`:

    if num_tracks > 10:
        raise ValueError("Can only provide up to 10 tracks per artist")
    tracks = []
    top_tracks = sp.artist_top_tracks(artist_id)
    for track in top_tracks['tracks'][:num_tracks]:
        tracks.append(track['name'])
    return tracks
-/
def retrieve_tracks (cat : Catalog) (artist_id : String) (num_tracks : Int) :
    Except PyError (List String) :=
  if num_tracks > 10 then
    .error (.valueError "Can only provide up to 10 tracks per artist")
  else
    .ok ((pySliceTo (cat.artist_top_tracks artist_id).tracks num_tracks).map TrackObj.name)

/-- One iteration of the loop body of `all_top_tracks`: resolve the artist
and fetch its top 10 tracks, producing the singleton dict
`{artist: tracks}` (modelled as the pair). -/
def topEntry (cat : Catalog) (artist : String) : Except PyError (String × List String) :=
  match retrieve_id cat artist with
  | .error e => .error e
  | .ok artist_id =>
    match retrieve_tracks cat artist_id 10 with
    | .error e => .error e
    | .ok ts => .ok (artist, ts)

/-- `SpotifyTool.all_top_tracks`:

    complete_track_arr = []
    for artist in artist_array:
        artist_id = SpotifyTool.retrieve_id(artist)
        all_tracks = {artist: SpotifyTool.retrieve_tracks(artist_id, 10)}
        complete_track_arr.append(all_tracks)
    return complete_track_arr

The loop runs left to right and the first exception aborts the whole
call. -/
def all_top_tracks (cat : Catalog) : List String → Except PyError (List (String × List String))
  | [] => .ok []
  | artist :: rest =>
    match topEntry cat artist with
    | .error e => .error e
    | .ok entry =>
      match all_top_tracks cat rest with
      | .error e => .error e
      | .ok tail => .ok (entry :: tail)

/-- `SpotifyTool._run`:

    num_artists = len(artists)
    max_tracks = num_artists * 10
    all_tracks_map = SpotifyTool.all_top_tracks(artists)
    all_tracks = [track for artist_map in all_tracks_map
                        for artist, tracks in artist_map.items()
                        for track in tracks]
    if tracks > max_tracks:
        raise ValueError(f"Only 10 tracks per artist, max tracks for this many artists is: {max_tracks}")
    final_tracks = random.sample(all_tracks, tracks)
    return final_tracks

`idxs` is the list of pairwise-distinct positions `random.sample` draws
(its randomness, made explicit); `random.sample` itself first raises
`ValueError` unless `0 ≤ tracks ≤ len(all_tracks)`. -/
def _run (cat : Catalog) (idxs : List Nat) (artists : List String) (tracks : Int) :
    Except PyError (List String) :=
  let max_tracks : Int := (artists.length : Int) * 10
  match all_top_tracks cat artists with
  | .error e => .error e
  | .ok all_tracks_map =>
    let all_tracks := (all_tracks_map.map Prod.snd).flatten
    if tracks > max_tracks then
      .error (.valueError
        ("Only 10 tracks per artist, max tracks for this many artists is: " ++ toString max_tracks))
    else if tracks < 0 ∨ (all_tracks.length : Int) < tracks then
      .error (.valueError "Sample larger than population or is negative")
    else
      .ok (idxs.filterMap (fun i => all_tracks[i]?))

/-- The flattened pool `all_tracks` that `_run` samples from (empty when
the aggregation fails, in which case `_run` fails before sampling). -/
def poolOf (cat : Catalog) (artists : List String) : List String :=
  match all_top_tracks cat artists with
  | .error _ => []
  | .ok m => (m.map Prod.snd).flatten

/-- The same pool with each track name kept together with the artist
query it was fetched for: position `i` of `pairPoolOf` is the
(artist, track) pair underlying position `i` of `poolOf`. -/
def pairPoolOf (cat : Catalog) (artists : List String) : List (String × String) :=
  match all_top_tracks cat artists with
  | .error _ => []
  | .ok m => (m.map (fun p => p.2.map (fun t => (p.1, t)))).flatten

/-- The (artist, track) pairs underlying the entries of a `_run` result
drawn at positions `idxs`. -/
def runPairs (cat : Catalog) (idxs : List Nat) (artists : List String) :
    List (String × String) :=
  idxs.filterMap (fun i => (pairPoolOf cat artists)[i]?)

/-- The contract of a successful `random.sample(pool, k)` draw from a pool
of `n` elements: exactly `k` pairwise-distinct in-range positions. -/
def IsSample (n : Nat) (k : Int) (idxs : List Nat) : Prop :=
  (idxs.length : Int) = k ∧ idxs.Nodup ∧ ∀ i ∈ idxs, i < n

instance (n : Nat) (k : Int) (idxs : List Nat) : Decidable (IsSample n k idxs) := by
  unfold IsSample; infer_instance

/-- The entry `all_top_tracks` builds for an artist that resolves (and the
dummy `(a, [])` otherwise, never reached under a resolution hypothesis). -/
def okEntry (cat : Catalog) (a : String) : String × List String :=
  match topEntry cat a with
  | .ok p => p
  | .error _ => (a, [])

/-- Concrete catalog: every search matches one artist `idA`, whose top
tracks are the single track `t`. -/
def catOneTrack : Catalog where
  search := fun _ => ⟨[("artists", ⟨[⟨"idA"⟩]⟩)]⟩
  artist_top_tracks := fun _ => ⟨[⟨"t"⟩]⟩

/-- Concrete catalog: every search returns the Spotify-shaped response
whose `items` list is empty (zero matches). -/
def catNoMatch : Catalog where
  search := fun _ => ⟨[("artists", ⟨[]⟩)]⟩
  artist_top_tracks := fun _ => ⟨[]⟩

/-- Concrete catalog: one matching artist with exactly three top tracks. -/
def catThreeTracks : Catalog where
  search := fun _ => ⟨[("artists", ⟨[⟨"idA"⟩]⟩)]⟩
  artist_top_tracks := fun _ => ⟨[⟨"t1"⟩, ⟨"t2"⟩, ⟨"t3"⟩]⟩

/-- Concrete catalog: one matching artist with exactly two top tracks. -/
def catTwoTracks : Catalog where
  search := fun _ => ⟨[("artists", ⟨[⟨"idA"⟩]⟩)]⟩
  artist_top_tracks := fun _ => ⟨[⟨"t1"⟩, ⟨"t2"⟩]⟩

/-- Concrete catalog distinguishing two artists `A` and `B`. -/
def catAB : Catalog where
  search := fun q =>
    if q == "A" then ⟨[("artists", ⟨[⟨"idA"⟩]⟩)]⟩ else ⟨[("artists", ⟨[⟨"idB"⟩]⟩)]⟩
  artist_top_tracks := fun i =>
    if i == "idA" then ⟨[⟨"a1"⟩]⟩ else ⟨[⟨"b1"⟩]⟩

section Lemmas

variable {cat : Catalog}

theorem topEntry_ok_fst {a : String} {p : String × List String}
    (h : topEntry cat a = .ok p) : p.1 = a := by
  cases hid : retrieve_id cat a with
  | error e => simp [topEntry, hid] at h
  | ok i =>
    cases htr : retrieve_tracks cat i 10 with
    | error e => simp [topEntry, hid, htr] at h
    | ok ts =>
      simp only [topEntry, hid, htr, Except.ok.injEq] at h
      rw [← h]

theorem all_top_tracks_ok_resolves {l : List String} {r : List (String × List String)}
    (h : all_top_tracks cat l = .ok r) :
    ∀ a ∈ l, ∃ ts, topEntry cat a = .ok (a, ts) := by
  induction l generalizing r with
  | nil => intro a ha; cases ha
  | cons b rest ih =>
    intro a ha
    cases hb : topEntry cat b with
    | error e => simp [all_top_tracks, hb] at h
    | ok entry =>
      cases hrest : all_top_tracks cat rest with
      | error e => simp [all_top_tracks, hb, hrest] at h
      | ok tail =>
        rcases List.mem_cons.mp ha with rfl | hmem
        · obtain ⟨e1, e2⟩ := entry
          have h1 : e1 = a := topEntry_ok_fst hb
          subst h1
          exact ⟨e2, hb⟩
        · exact ih hrest a hmem

theorem all_top_tracks_eq_map {l : List String}
    (h : ∀ a ∈ l, ∃ p, topEntry cat a = .ok p) :
    all_top_tracks cat l = .ok (l.map (okEntry cat)) := by
  induction l with
  | nil => rfl
  | cons b rest ih =>
    obtain ⟨p, hp⟩ := h b (List.mem_cons_self b rest)
    have hrest := ih (fun a ha => h a (List.mem_cons_of_mem b ha))
    simp [all_top_tracks, hp, hrest, okEntry]

theorem all_top_tracks_ok_eq {l : List String} {r : List (String × List String)}
    (h : all_top_tracks cat l = .ok r) : r = l.map (okEntry cat) := by
  have hres : ∀ a ∈ l, ∃ p, topEntry cat a = .ok p := by
    intro a ha
    obtain ⟨ts, hts⟩ := all_top_tracks_ok_resolves h a ha
    exact ⟨(a, ts), hts⟩
  have hmap := all_top_tracks_eq_map hres
  rw [h] at hmap
  exact Except.ok.inj hmap

theorem poolOf_eq {artists : List String} {m : List (String × List String)}
    (h : all_top_tracks cat artists = .ok m) :
    poolOf cat artists = (m.map Prod.snd).flatten := by
  unfold poolOf; rw [h]

theorem pairPoolOf_eq {artists : List String} {m : List (String × List String)}
    (h : all_top_tracks cat artists = .ok m) :
    pairPoolOf cat artists = (m.map (fun p => p.2.map (fun t => (p.1, t)))).flatten := by
  unfold pairPoolOf; rw [h]

theorem pairPoolOf_map_snd (cat : Catalog) (artists : List String) :
    (pairPoolOf cat artists).map Prod.snd = poolOf cat artists := by
  unfold pairPoolOf poolOf
  cases all_top_tracks cat artists with
  | error e => rfl
  | ok m =>
    simp only [List.map_flatten, List.map_map]
    congr 2
    funext p
    simp [Function.comp]

theorem run_ok_iff {idxs : List Nat} {artists : List String} {tracks : Int}
    {r : List String} :
    _run cat idxs artists tracks = .ok r ↔
      ∃ m, all_top_tracks cat artists = .ok m ∧
        tracks ≤ (artists.length : Int) * 10 ∧
        0 ≤ tracks ∧ tracks ≤ ((m.map Prod.snd).flatten.length : Int) ∧
        r = idxs.filterMap (fun i => (m.map Prod.snd).flatten[i]?) := by
  unfold _run
  cases h : all_top_tracks cat artists with
  | error e => simp
  | ok m =>
    simp only [Except.ok.injEq, exists_eq_left']
    split_ifs with h1 h2
    · simp only [(by simp : ∀ x, (Except.error (α := List String) x = Except.ok r) ↔ False),
        false_iff]
      intro hc
      exact absurd hc.1 (not_le.mpr h1)
    · simp only [(by simp : ∀ x, (Except.error (α := List String) x = Except.ok r) ↔ False),
        false_iff]
      intro hc
      rcases h2 with h2 | h2
      · exact absurd h2 (not_lt.mpr hc.2.1)
      · exact absurd h2 (not_lt.mpr hc.2.2.1)
    · push_neg at h1 h2
      simp only [Except.ok.injEq]
      constructor
      · intro hr
        exact ⟨h1, h2.1, h2.2, hr.symm⟩
      · intro hc
        exact hc.2.2.2.symm

theorem filterMap_getElem?_length {l : List String} {idxs : List Nat}
    (h : ∀ i ∈ idxs, i < l.length) :
    (idxs.filterMap (fun i => l[i]?)).length = idxs.length := by
  induction idxs with
  | nil => rfl
  | cons i t ih =>
    have hi : i < l.length := h i (List.mem_cons_self i t)
    have ht := ih (fun j hj => h j (List.mem_cons_of_mem i hj))
    simp [List.filterMap_cons, List.getElem?_eq_getElem hi, ht]

theorem nodup_filterMap_getElem? {α : Type} [DecidableEq α] {l : List α} {idxs : List Nat}
    (hl : l.Nodup) (hi : idxs.Nodup) :
    (idxs.filterMap (fun i => l[i]?)).Nodup := by
  refine List.Nodup.filterMap ?_ hi
  intro a b c hca hcb
  simp only [Option.mem_def] at hca hcb
  have ha : a < l.length := by
    rcases List.getElem?_eq_some.mp hca with ⟨h, _⟩
    exact h
  exact List.getElem?_inj ha hl (hca.trans hcb.symm)

end Lemmas

/-! ### Claim theorems -/

/-- Claim C8: `retrieve_id` decides its zero-matches branch by the number
of keys of the whole search-response dict, not by the number of matched
artists.  For every response with at least one key — in particular every
response containing an `artists` key — the `No artists found` `ValueError`
is unreachable, and when the matched-items list is empty the call instead
fails at the indexing of the first item, with an `IndexError`. -/
theorem retrieve_id_dead_error_branch (cat : Catalog) (a : String) :
    ((cat.search a).entries ≠ [] →
      retrieve_id cat a ≠
        .error (.valueError ("No artists found with this name: " ++ a))) ∧
    (∀ obj, dictLookup (cat.search a).entries "artists" = some obj → obj.items = [] →
      retrieve_id cat a = .error .indexError) := by
  have hlen0 : (cat.search a).entries ≠ [] → 0 < (cat.search a).entries.length :=
    fun hne => List.length_pos.mpr hne
  constructor
  · intro hne heq
    simp only [retrieve_id, if_pos (hlen0 hne)] at heq
    cases hd : dictLookup (cat.search a).entries "artists" with
    | none => simp [hd] at heq
    | some obj =>
      cases hobj : obj.items with
      | nil => simp [hd, hobj] at heq
      | cons item rest => simp [hd, hobj] at heq
  · intro obj hd hobj
    have hne : (cat.search a).entries ≠ [] := by
      intro hnil
      rw [hnil] at hd
      simp [dictLookup] at hd
    simp only [retrieve_id, if_pos (hlen0 hne), hd, hobj]

/-- Claim C8 witness: a Spotify-shaped response with an empty match list
takes the `IndexError` path. -/
theorem retrieve_id_dead_error_branch_witness :
    retrieve_id catNoMatch "Z" = .error .indexError :=
  (retrieve_id_dead_error_branch catNoMatch "Z").2 ⟨[]⟩ rfl rfl

/-- Claim C10: a negative limit passes the `num_tracks > 10` check, and as
a Python slice bound it keeps all but the last `|limit|` fetched track
names — the empty list once `|limit|` reaches the list's length.  The
names are the service's, in the service's order. -/
theorem retrieve_tracks_negative_limit (cat : Catalog) (artist_id : String)
    (num_tracks : Int) (h : num_tracks < 0) :
    retrieve_tracks cat artist_id num_tracks =
      .ok (((cat.artist_top_tracks artist_id).tracks.map TrackObj.name).take
        ((cat.artist_top_tracks artist_id).tracks.length - (-num_tracks).toNat)) ∧
    ((cat.artist_top_tracks artist_id).tracks.length ≤ (-num_tracks).toNat →
      retrieve_tracks cat artist_id num_tracks = .ok []) := by
  have hnot : ¬ num_tracks > 10 := by omega
  have hneg : ¬ 0 ≤ num_tracks := by omega
  have hmain : retrieve_tracks cat artist_id num_tracks =
      .ok (((cat.artist_top_tracks artist_id).tracks.map TrackObj.name).take
        ((cat.artist_top_tracks artist_id).tracks.length - (-num_tracks).toNat)) := by
    simp only [retrieve_tracks, if_neg hnot, pySliceTo, if_neg hneg, Except.ok.injEq]
    exact List.map_take TrackObj.name (cat.artist_top_tracks artist_id).tracks _
  refine ⟨hmain, fun hle => ?_⟩
  rw [hmain, Nat.sub_eq_zero_of_le hle, List.take_zero]

/-- Claim C10 witness: limit `-1` on a two-track artist keeps the first
track, and limit `-2` keeps nothing. -/
theorem retrieve_tracks_negative_limit_witness :
    retrieve_tracks catTwoTracks "idA" (-1) = .ok ["t1"] ∧
    retrieve_tracks catTwoTracks "idA" (-2) = .ok [] :=
  ⟨((retrieve_tracks_negative_limit catTwoTracks "idA" (-1) (by decide)).1).trans
      (by decide),
    (retrieve_tracks_negative_limit catTwoTracks "idA" (-2) (by decide)).2 (by decide)⟩

/-- Claim C4 (code bug): on a catalog whose search response is
Spotify-shaped but matches zero artists, the intended `No artists found`
`ValueError` branch is dead; `retrieve_id` — and `_run` through it — fails
with the `IndexError` of `items[0]` instead, an error that does not name
the artist. -/
theorem retrieve_id_zero_matches_index_error :
    retrieve_id catNoMatch "Z" = .error .indexError ∧
    _run catNoMatch [] ["Z"] 1 = .error .indexError ∧
    (.error .indexError : Except PyError String) ≠
      .error (.valueError ("No artists found with this name: " ++ "Z")) := by
  exact ⟨rfl, rfl, by decide⟩

/-- Claim C5 (code bug): one artist with only three real tracks and five
requested — within the theoretical per-artist capacity of ten — makes
`_run` fail with the generic `ValueError` raised inside `random.sample`
(`Sample larger than population or is negative`), not with an explicit
`InsufficientTracks` error surfaced by the tool itself. -/
theorem run_insufficient_pool_error :
    (5 : Int) ≤ (List.length ["A"] : Int) * 10 ∧
    (poolOf catThreeTracks ["A"]).length = 3 ∧
    _run catThreeTracks [] ["A"] 5 =
      .error (.valueError "Sample larger than population or is negative") := by
  exact ⟨by decide, rfl, rfl⟩

/-- Claim C9: a request for zero tracks succeeds with the empty list
whenever every artist resolves — the capacity check `0 > 10 * len`, the
sampler's argument check and the empty draw all pass — with no rejection
of the non-positive count or, taking `artists = []`, of the empty artist
list. -/
theorem run_zero_tracks (cat : Catalog) (artists : List String)
    (m : List (String × List String)) (h : all_top_tracks cat artists = .ok m) :
    _run cat [] artists 0 = .ok [] := by
  simp only [_run, h]
  rw [if_neg (by omega : ¬ (0 : Int) > (artists.length : Int) * 10),
    if_neg (by omega :
      ¬ ((0 : Int) < 0 ∨ (((m.map Prod.snd).flatten.length : Nat) : Int) < 0))]
  rfl

/-- Claim C9 witness: the empty artist list with track count zero returns
the empty list. -/
theorem run_zero_tracks_witness : _run catOneTrack [] [] 0 = .ok [] :=
  run_zero_tracks catOneTrack [] [] rfl

/-- Claim C6 (counterexample): at limit `-1` against an artist with two
top tracks, `retrieve_tracks` does not fail and returns one track name —
which is not `at most limit` many, refuting the claim's bound for a limit
that is not greater than 10. -/
theorem retrieve_tracks_le_limit_counterexample :
    retrieve_tracks catTwoTracks "idA" (-1) = .ok ["t1"] ∧
    ¬ ((List.length ["t1"] : Int) ≤ -1) := by
  exact ⟨rfl, by decide⟩

/-- Claim C6 (amended): `retrieve_tracks` fails with the `InvalidLimit`
`ValueError` exactly on limits greater than 10; every other limit
succeeds with a left-aligned slice of the service's own track-name list
(no local reordering), whose length is at most `limit` whenever
`0 ≤ limit`, and at most 10 whenever the service itself returns at most
10 tracks. -/
theorem retrieve_tracks_limit_spec (cat : Catalog) (artist_id : String) (limit : Int) :
    (10 < limit →
      retrieve_tracks cat artist_id limit =
        .error (.valueError "Can only provide up to 10 tracks per artist")) ∧
    (limit ≤ 10 → ∃ r,
      retrieve_tracks cat artist_id limit = .ok r ∧
      (∃ n, r = ((cat.artist_top_tracks artist_id).tracks.map TrackObj.name).take n) ∧
      (0 ≤ limit → (r.length : Int) ≤ limit) ∧
      ((cat.artist_top_tracks artist_id).tracks.length ≤ 10 → r.length ≤ 10)) := by
  constructor
  · intro hgt
    simp only [retrieve_tracks, if_pos hgt]
  · intro hle
    set names := (cat.artist_top_tracks artist_id).tracks.map TrackObj.name with hnames
    set n := if 0 ≤ limit then limit.toNat
      else (cat.artist_top_tracks artist_id).tracks.length - (-limit).toNat with hn
    refine ⟨names.take n, ?_, ⟨n, rfl⟩, ?_, ?_⟩
    · simp only [retrieve_tracks, if_neg (by omega : ¬ limit > 10), pySliceTo,
        Except.ok.injEq, hnames, hn]
      exact List.map_take TrackObj.name (cat.artist_top_tracks artist_id).tracks _
    · intro hpos
      have hlen : (names.take n).length ≤ n := by
        rw [List.length_take]
        exact Nat.min_le_left _ _
      have hnval : n = limit.toNat := by rw [hn, if_pos hpos]
      have : (names.take n).length ≤ limit.toNat := hnval ▸ hlen
      omega
    · intro h10
      have hlen : (names.take n).length ≤ names.length := by
        rw [List.length_take]
        exact Nat.min_le_right _ _
      have hmaplen : names.length = (cat.artist_top_tracks artist_id).tracks.length := by
        rw [hnames, List.length_map]
      omega

/-- Claim C6 witness: limit 11 is rejected with the `InvalidLimit`
`ValueError`, and limit 10 on a two-track artist returns both names in
service order. -/
theorem retrieve_tracks_limit_spec_witness :
    retrieve_tracks catTwoTracks "idA" 11 =
      .error (.valueError "Can only provide up to 10 tracks per artist") :=
  (retrieve_tracks_limit_spec catTwoTracks "idA" 11).1 (by decide)

/-- Claim C3 (counterexample): one unresolvable artist and 11 > 10
requested tracks: `_run` runs the aggregation first, so it fails with its
`IndexError`, not with the capacity `ValueError` the claim requires. -/
theorem run_capacity_counterexample :
    (11 : Int) > (List.length ["Z"] : Int) * 10 ∧
    _run catNoMatch [] ["Z"] 11 = .error .indexError ∧
    (.error .indexError : Except PyError (List String)) ≠
      .error (.valueError
        ("Only 10 tracks per artist, max tracks for this many artists is: " ++
          toString (10 : Int))) := by
  exact ⟨by decide, rfl, by decide⟩

/-- Claim C3 (amended): whenever the aggregation of top tracks succeeds —
`_run` aggregates before checking capacity — a request for more than
`10 * len(artists)` tracks fails with the capacity `ValueError` naming
the ceiling. -/
theorem run_capacity_exceeded (cat : Catalog) (idxs : List Nat)
    (artists : List String) (tracks : Int) (m : List (String × List String))
    (hok : all_top_tracks cat artists = .ok m)
    (h : tracks > (artists.length : Int) * 10) :
    _run cat idxs artists tracks =
      .error (.valueError
        ("Only 10 tracks per artist, max tracks for this many artists is: " ++
          toString ((artists.length : Int) * 10))) := by
  simp only [_run, hok]
  rw [if_pos h]

/-- Claim C3 witness: one resolvable artist, 11 requested tracks. -/
theorem run_capacity_exceeded_witness :
    _run catOneTrack [] ["A"] 11 =
      .error (.valueError
        ("Only 10 tracks per artist, max tracks for this many artists is: " ++
          toString ((List.length ["A"] : Int) * 10))) :=
  run_capacity_exceeded catOneTrack [] ["A"] 11 [("A", ["t"])] rfl (by decide)

/-- Claim C1: on every successful `_run` call the returned track list has
exactly the requested length: `random.sample` draws one pool entry per
requested track, at `tracks` many distinct in-range positions. -/
theorem run_length_eq_requested (cat : Catalog) (idxs : List Nat)
    (artists : List String) (tracks : Int) (r : List String)
    (hs : IsSample (poolOf cat artists).length tracks idxs)
    (hr : _run cat idxs artists tracks = .ok r) :
    (r.length : Int) = tracks := by
  obtain ⟨m, hok, hcap, hpos, hlen, hreq⟩ := run_ok_iff.mp hr
  obtain ⟨hslen, hnodup, hbound⟩ := hs
  rw [poolOf_eq hok] at hbound
  rw [hreq, filterMap_getElem?_length hbound]
  exact hslen

/-- Claim C1 witness: one artist with one track, one track requested. -/
theorem run_length_eq_requested_witness :
    _run catOneTrack [0] ["A"] 1 = .ok ["t"] ∧
    ((["t"] : List String).length : Int) = 1 :=
  ⟨by decide, run_length_eq_requested catOneTrack [0] ["A"] 1 ["t"] (by decide) (by decide)⟩

/-- Claim C2 (counterexample): the artist list `["A", "A"]` repeats one
query, so the pool holds artist `A`'s single track twice; the draw taking
both positions — a legitimate without-replacement sample — succeeds and
its underlying (artist, track) pairs repeat `("A", "t")`. -/
theorem run_no_duplicate_pairs_counterexample :
    IsSample (poolOf catOneTrack ["A", "A"]).length 2 [0, 1] ∧
    _run catOneTrack [0, 1] ["A", "A"] 2 = .ok ["t", "t"] ∧
    runPairs catOneTrack [0, 1] ["A", "A"] = [("A", "t"), ("A", "t")] ∧
    ¬ (runPairs catOneTrack [0, 1] ["A", "A"]).Nodup := by
  exact ⟨by decide, by decide, by decide, by decide⟩

/-- Claim C2 (amended): the entries of a successful `_run` result are
drawn at pairwise-distinct positions of the pool — the returned names are
the second components of the (artist, track) pairs at those positions —
so the multiset of underlying pairs is duplicate-free whenever the pooled
pairs are pairwise distinct (as when no artist query repeats and no
fetched track list repeats a name); a repeated artist query repeats pairs
in the pool itself, and the result may then repeat a pair. -/
theorem run_no_duplicate_pairs (cat : Catalog) (idxs : List Nat)
    (artists : List String) (tracks : Int) (r : List String)
    (hs : IsSample (poolOf cat artists).length tracks idxs)
    (hr : _run cat idxs artists tracks = .ok r) :
    r = (runPairs cat idxs artists).map Prod.snd ∧
    ((pairPoolOf cat artists).Nodup → (runPairs cat idxs artists).Nodup) := by
  obtain ⟨m, hok, hcap, hpos, hlen, hreq⟩ := run_ok_iff.mp hr
  obtain ⟨hslen, hnodup, hbound⟩ := hs
  rw [← poolOf_eq hok] at hreq
  constructor
  · rw [hreq]
    unfold runPairs
    rw [List.map_filterMap]
    congr 1
    funext i
    rw [← pairPoolOf_map_snd cat artists, List.getElem?_map]
  · intro hpool
    unfold runPairs
    exact nodup_filterMap_getElem? hpool hnodup

/-- Claim C2 witness (for the amended claim): two distinct artists with
distinct single tracks; the two-element draw is duplicate-free. -/
theorem run_no_duplicate_pairs_witness :
    runPairs catAB [0, 1] ["A", "B"] = [("A", "a1"), ("B", "b1")] ∧
    (runPairs catAB [0, 1] ["A", "B"]).Nodup :=
  ⟨by decide,
    (run_no_duplicate_pairs catAB [0, 1] ["A", "B"] 2 ["a1", "b1"]
      (by decide) (by decide)).2 (by decide)⟩

/-- Claim C7: the aggregation's content is order-independent: a permuted
artist list succeeds on exactly the same artists and yields a permuted
entry list — the same mapping from artist query to track list — and every
entry associates its query with that query's own top-10 fetch. -/
theorem all_top_tracks_perm (cat : Catalog) (l1 l2 : List String)
    (r1 : List (String × List String)) (hperm : l1.Perm l2)
    (h1 : all_top_tracks cat l1 = .ok r1) :
    ∃ r2, all_top_tracks cat l2 = .ok r2 ∧ r1.Perm r2 ∧
      (∀ a ts, (a, ts) ∈ r2 ↔ (a, ts) ∈ r1) ∧
      (∀ a ts, (a, ts) ∈ r1 → topEntry cat a = .ok (a, ts)) := by
  have hres1 : ∀ a ∈ l1, ∃ p, topEntry cat a = .ok p := by
    intro a ha
    obtain ⟨ts, hts⟩ := all_top_tracks_ok_resolves h1 a ha
    exact ⟨(a, ts), hts⟩
  have hres2 : ∀ a ∈ l2, ∃ p, topEntry cat a = .ok p :=
    fun a ha => hres1 a (hperm.mem_iff.mpr ha)
  have h2 := all_top_tracks_eq_map hres2
  have he1 := all_top_tracks_ok_eq h1
  have hp12 : r1.Perm (l2.map (okEntry cat)) := by
    rw [he1]
    exact hperm.map (okEntry cat)
  refine ⟨l2.map (okEntry cat), h2, hp12, fun a ts => hp12.symm.mem_iff, ?_⟩
  intro a ts hmem
  rw [he1] at hmem
  obtain ⟨b, hb, hval⟩ := List.mem_map.mp hmem
  obtain ⟨p, hp⟩ := hres1 b hb
  have hok : okEntry cat b = p := by simp [okEntry, hp]
  rw [hok] at hval
  subst hval
  have hfst : a = b := topEntry_ok_fst hp
  rw [← hfst] at hp
  exact hp

/-- Claim C7 witness: swapping a two-artist list permutes the two entries
of the mapping. -/
theorem all_top_tracks_perm_witness :
    all_top_tracks catAB ["B", "A"] = .ok [("B", ["b1"]), ("A", ["a1"])] ∧
    [("A", ["a1"]), ("B", ["b1"])].Perm [("B", ["b1"]), ("A", ["a1"])] := by
  obtain ⟨r2, h2, hperm, hmem, htop⟩ := all_top_tracks_perm catAB ["A", "B"] ["B", "A"]
    [("A", ["a1"]), ("B", ["b1"])] (by decide) (by decide)
  have hconc : all_top_tracks catAB ["B", "A"] = .ok [("B", ["b1"]), ("A", ["a1"])] := by
    decide
  have hr2 : r2 = [("B", ["b1"]), ("A", ["a1"])] := Except.ok.inj (h2.symm.trans hconc)
  exact ⟨hconc, hr2 ▸ hperm⟩

end SpotifyAI
